import Mathlib

/-!
Verification of the restaurant-chatbot booking engine.

The model below is a shallow embedding of the booking core in
`src/restaurant.chatbot.py`: the three SQLite relations become lists of
records inside a `DB` state, and each method of `BookingAgent` (lines
67-116) and `RestaurantInterface.update_availability` (lines 208-215)
becomes a pure function from a `DB` to a new `DB` paired with the string
the Python method returns.  SQLite `INTEGER` columns are modelled as `Int`
(Python integers are unbounded and SQLite stores signed integers), `TEXT`
columns as `String`.
-/

/-- Row of the `Restaurants` table (source lines 16-24). -/
structure Restaurant where
  id : Int
  name : String
  capacity : Int
  opening_time : String
  closing_time : String
deriving DecidableEq

/-- Row of the `Bookings` table (source lines 26-35).  `id` is the
`INTEGER PRIMARY KEY` that SQLite assigns on insert. -/
structure Booking where
  id : Int
  restaurant_id : Int
  customer_name : String
  customer_phone : String
  reservation_time : String
  party_size : Int
deriving DecidableEq

/-- Row of the `Availability` table (source lines 37-44). -/
structure AvailabilityRow where
  id : Int
  restaurant_id : Int
  date : String
  available_slots : Int
deriving DecidableEq

/-- The database state: the three relations plus the rowid counter that
SQLite uses to assign the next `Bookings.id`. -/
structure DB where
  restaurants : List Restaurant
  bookings : List Booking
  availability : List AvailabilityRow
  nextBookingId : Int
deriving DecidableEq

/-- Date component of a timestamp: `reservation_time.split(" ")[0]` at
source line 85, i.e. the characters before the first space.  Realised
over the character list so it computes by kernel reduction. -/
def dateOf (reservation_time : String) : String :=
  ⟨reservation_time.data.takeWhile (fun c => c != ' ')⟩

/-- The `SELECT available_slots FROM Availability WHERE restaurant_id = ?
AND date = ?` query with `fetchone()` (source lines 86-88): first matching
row, if any. -/
def fetchAvailability (db : DB) (restaurant_id : Int) (date : String) :
    Option AvailabilityRow :=
  db.availability.find? (fun a => a.restaurant_id == restaurant_id && a.date == date)

def confirmedMsg : String := "Booking confirmed!"

def noSlotsMsg : String := "Sorry, no available slots at the requested time."

def updatedMsg : String := "Booking updated!"

def canceledMsg : String := "Booking canceled."

def notFoundMsg : String := "Booking not found."

namespace BookingAgent

/-- `BookingAgent.check_availability` (source lines 81-92): true when a
row for `(restaurant_id, date)` exists and its slot count is at least
`party_size`; a missing row yields false. -/
def check_availability (db : DB) (restaurant_id : Int) (reservation_time : String)
    (party_size : Int) : Bool :=
  match fetchAvailability db restaurant_id (dateOf reservation_time) with
  | some row => decide (row.available_slots ≥ party_size)
  | none => false

/-- `BookingAgent.book_table` (source lines 67-79): on a positive
availability check it inserts a booking row and reports confirmation;
otherwise it reports no availability.  The `Availability` table is not
touched in either branch, exactly as in the source. -/
def book_table (db : DB) (restaurant_id : Int) (customer_name customer_phone : String)
    (reservation_time : String) (party_size : Int) : DB × String :=
  if check_availability db restaurant_id reservation_time party_size then
    ({ db with
        bookings := db.bookings ++
          [⟨db.nextBookingId, restaurant_id, customer_name, customer_phone,
            reservation_time, party_size⟩],
        nextBookingId := db.nextBookingId + 1 },
      confirmedMsg)
  else
    (db, noSlotsMsg)

/-- `BookingAgent.modify_booking` (source lines 94-108): fetch the booking
(`fetchone` on `SELECT * FROM Bookings WHERE id = ?`); if present, check
availability for the NEW time and NEW party size against the booking's own
restaurant (`booking[1]`), and on success update `reservation_time` and
`party_size` of every row with that id.  The `Availability` table is never
touched. -/
def modify_booking (db : DB) (booking_id : Int) (new_reservation_time : String)
    (new_party_size : Int) : DB × String :=
  match db.bookings.find? (fun b => b.id == booking_id) with
  | some booking =>
    if check_availability db booking.restaurant_id new_reservation_time new_party_size then
      ({ db with
          bookings := db.bookings.map (fun b =>
            if b.id == booking_id then
              { b with reservation_time := new_reservation_time,
                       party_size := new_party_size }
            else b) },
        updatedMsg)
    else
      (db, noSlotsMsg)
  | none => (db, notFoundMsg)

/-- `BookingAgent.cancel_booking` (source lines 110-116): unconditionally
run `DELETE FROM Bookings WHERE id = ?` and report cancellation, whether or
not any row matched.  `Availability` is never touched. -/
def cancel_booking (db : DB) (booking_id : Int) : DB × String :=
  ({ db with bookings := db.bookings.filter (fun b => b.id != booking_id) },
    canceledMsg)

end BookingAgent

namespace RestaurantInterface

/-- `RestaurantInterface.update_availability` (source lines 208-215):
`UPDATE Availability SET available_slots = ? WHERE restaurant_id = ? AND
date = ?` — it overwrites the slot count of every matching row with the
given value, with no bounds check. -/
def update_availability (db : DB) (restaurant_id : Int) (date : String)
    (available_slots : Int) : DB :=
  { db with
      availability := db.availability.map (fun a =>
        if a.restaurant_id == restaurant_id && a.date == date then
          { a with available_slots := available_slots }
        else a) }

end RestaurantInterface

/-- Sum of the party sizes of all stored bookings for a restaurant whose
reservation date equals `date` (the spec's "active bookings for R on D"). -/
def sumPartyOn (db : DB) (restaurant_id : Int) (date : String) : Int :=
  ((db.bookings.filter (fun b =>
      b.restaurant_id == restaurant_id && dateOf b.reservation_time == date)).map
    Booking.party_size).sum

/-- The cross-entity invariant the spec states as the core contract: for
every restaurant and every availability row of that restaurant,
`available_slots + sum(party_size of active bookings on that date) =
capacity`. -/
def capacityInvariant (db : DB) : Prop :=
  ∀ r ∈ db.restaurants, ∀ a ∈ db.availability,
    a.restaurant_id = r.id →
    a.available_slots + sumPartyOn db r.id a.date = r.capacity

instance (db : DB) : Decidable (capacityInvariant db) :=
  inferInstanceAs (Decidable (∀ r ∈ db.restaurants, ∀ a ∈ db.availability,
    a.restaurant_id = r.id →
    a.available_slots + sumPartyOn db r.id a.date = r.capacity))

/-- Concrete restaurant with capacity 50, as in the spec's scenario. -/
def rest50 : Restaurant := ⟨1, "R1", 50, "10:00", "23:00"⟩

/-- Initial state of the spec's scenario: capacity 50, 50 slots on
2025-02-10, no bookings. -/
def db50 : DB := ⟨[rest50], [], [⟨1, 1, "2025-02-10", 50⟩], 1⟩

/-- State of the scenario after booking a party of 50 on 2025-02-10. -/
def scenarioBook1 : DB × String :=
  BookingAgent.book_table db50 1 "Alice" "555-0001" "2025-02-10 12:00" 50

/-- State of the scenario after the second booking attempt (party of 1). -/
def scenarioBook2 : DB × String :=
  BookingAgent.book_table scenarioBook1.1 1 "Bob" "555-0002" "2025-02-10 13:00" 1

/-- State of the scenario after cancelling the first booking. -/
def scenarioCancel : DB × String :=
  BookingAgent.cancel_booking scenarioBook2.1 1

/-- Slot count of the first availability row for a restaurant and date, if
one exists. -/
def slotsOf (db : DB) (restaurant_id : Int) (date : String) : Option Int :=
  (fetchAvailability db restaurant_id date).map AvailabilityRow.available_slots

/-- First of two sequential bookings of parties of 30 against 50 slots. -/
def overbookA : DB × String :=
  BookingAgent.book_table db50 1 "Dave" "555-0004" "2025-02-10 18:00" 30

/-- Second of two sequential bookings of parties of 30 against 50 slots. -/
def overbookB : DB × String :=
  BookingAgent.book_table overbookA.1 1 "Erin" "555-0005" "2025-02-10 19:00" 30

/-- State holding a single booking (id 1, party of 2) with a consistent
ledger, used to exercise the cancellation path. -/
def dbOneBooking : DB :=
  ⟨[rest50], [⟨1, 1, "Alice", "555-0001", "2025-02-10 18:00", 2⟩],
    [⟨1, 1, "2025-02-10", 48⟩], 2⟩

/-- State with a restaurant but an empty `Availability` table. -/
def dbNoDates : DB := ⟨[rest50], [], [], 1⟩

/-- State with one booking of party 5 on 2025-02-10 but only 3 slots left
in the ledger for that date. -/
def dbTight : DB :=
  ⟨[rest50], [⟨1, 1, "Gina", "555-0007", "2025-02-10 18:00", 5⟩],
    [⟨1, 1, "2025-02-10", 3⟩], 2⟩

/-- State with one booking of party 5 on 2025-02-10 and 5 slots left. -/
def dbRoomy : DB :=
  ⟨[rest50], [⟨1, 1, "Hank", "555-0008", "2025-02-10 18:00", 5⟩],
    [⟨1, 1, "2025-02-10", 5⟩], 2⟩

/-- State db50 after staff set the 2025-02-10 slot count to -2 through
`update_availability` (which performs no bounds check). -/
def dbNegSlots : DB :=
  RestaurantInterface.update_availability db50 1 "2025-02-10" (-2)

/-- State with an availability row holding exactly 0 slots and no
bookings. -/
def dbZeroSlots : DB := ⟨[rest50], [], [⟨1, 1, "2025-02-10", 0⟩], 1⟩

/-- Projection of a booking onto the fields `modify_booking` must never
change: id, restaurant, customer name and phone. -/
def bookingIdentity (b : Booking) : Int × Int × String × String :=
  (b.id, b.restaurant_id, b.customer_name, b.customer_phone)

/-- C1: the capacity invariant is NOT preserved by `book_table`.  Starting
from a state where it holds (capacity 50, 50 slots, no bookings), a
confirmed booking of a party of 1 leaves `available_slots` untouched while
the booking sum grows, so the invariant fails afterwards: the code never
decrements the ledger. -/
theorem book_table_violates_capacity_invariant :
    capacityInvariant db50 ∧
    (BookingAgent.book_table db50 1 "Alice" "555-0001" "2025-02-10 18:00" 1).2
      = confirmedMsg ∧
    ¬ capacityInvariant
        (BookingAgent.book_table db50 1 "Alice" "555-0001" "2025-02-10 18:00" 1).1 := by
  decide

/-- C2: a successful `book_table` does NOT decrement `available_slots` by
the party size.  With 50 slots, booking a party of 1 is confirmed, yet the
entry still holds 50 slots afterwards, not 49. -/
theorem book_table_does_not_decrement_slots :
    slotsOf db50 1 "2025-02-10" = some 50 ∧
    (BookingAgent.book_table db50 1 "Carol" "555-0003" "2025-02-10 18:00" 1).2
      = confirmedMsg ∧
    slotsOf (BookingAgent.book_table db50 1 "Carol" "555-0003" "2025-02-10 18:00" 1).1
      1 "2025-02-10" = some 50 ∧
    some ((50 : Int) - 1) ≠ some (50 : Int) := by
  decide

/-- C3: the capacity-50 scenario diverges from the spec.  The first
booking (party 50) is confirmed but slots stay at 50 instead of dropping
to 0; the second booking (party 1) is then also confirmed instead of being
rejected; the cancel reports cancellation with slots still at 50. -/
theorem scenario_capacity50_diverges :
    scenarioBook1.2 = confirmedMsg ∧
    slotsOf scenarioBook1.1 1 "2025-02-10" = some 50 ∧
    scenarioBook2.2 = confirmedMsg ∧
    confirmedMsg ≠ noSlotsMsg ∧
    scenarioCancel.2 = canceledMsg ∧
    slotsOf scenarioCancel.1 1 "2025-02-10" = some 50 := by
  decide

/-- C8: even when the two `book_table` calls run strictly one after the
other (one interleaving of the pair), both succeed although their combined
party sizes (60) exceed the 50 remaining slots: the check-then-insert is
not atomic in any useful sense because the check never observes earlier
bookings. -/
theorem sequential_books_oversell :
    overbookA.2 = confirmedMsg ∧
    overbookB.2 = confirmedMsg ∧
    sumPartyOn overbookB.1 1 "2025-02-10" = 60 ∧
    slotsOf db50 1 "2025-02-10" = some 50 ∧
    (50 : Int) < 60 := by
  decide

/-- C4 counterexample: cancelling booking id 1 twice returns the
cancellation message BOTH times; the second call does not return the
not-found message, contrary to the claim. -/
theorem cancel_twice_reports_canceled_twice :
    (BookingAgent.cancel_booking dbOneBooking 1).2 = canceledMsg ∧
    (BookingAgent.cancel_booking
        (BookingAgent.cancel_booking dbOneBooking 1).1 1).2 = canceledMsg ∧
    canceledMsg ≠ notFoundMsg := by
  decide

/-- C4 amended: `cancel_booking` reports cancellation unconditionally —
on any state and any id, both the first and the second call return the
cancellation message (the second call deletes nothing, since no booking
with that id survives the first call), and the not-found message is never
produced. -/
theorem cancel_booking_always_reports_canceled (db : DB) (booking_id : Int) :
    (BookingAgent.cancel_booking db booking_id).2 = canceledMsg ∧
    (BookingAgent.cancel_booking
        (BookingAgent.cancel_booking db booking_id).1 booking_id).2 = canceledMsg ∧
    (BookingAgent.cancel_booking db booking_id).1.bookings.find?
        (fun b => b.id == booking_id) = none := by
  refine ⟨rfl, rfl, ?_⟩
  rw [List.find?_eq_none]
  intro b hb
  have hkeep := (List.mem_filter.mp hb).2
  simp only [bne_iff_ne, ne_eq] at hkeep
  simpa using hkeep

/-- C7: when no availability row exists for the requested restaurant and
date, `book_table` returns the no-availability message and leaves the
state unchanged (in particular it inserts no booking), whatever the party
size — a missing entry is never treated as available capacity. -/
theorem book_table_missing_entry_rejects (db : DB) (restaurant_id : Int)
    (customer_name customer_phone reservation_time : String) (party_size : Int)
    (h : fetchAvailability db restaurant_id (dateOf reservation_time) = none) :
    BookingAgent.book_table db restaurant_id customer_name customer_phone
      reservation_time party_size = (db, noSlotsMsg) := by
  unfold BookingAgent.book_table BookingAgent.check_availability
  rw [h]
  rfl

/-- C7 witness: with an empty availability table, booking a party of 4 is
rejected without any state change. -/
theorem book_table_missing_entry_rejects_witness :
    BookingAgent.book_table dbNoDates 1 "Frank" "555-0006" "2025-03-01 18:00" 4
      = (dbNoDates, noSlotsMsg) :=
  book_table_missing_entry_rejects dbNoDates 1 "Frank" "555-0006"
    "2025-03-01 18:00" 4 (by decide)

/-- Unfolding lemma: the availability check succeeds exactly when a row
for the booking's restaurant and the requested date exists and holds at
least the requested party size. -/
theorem check_availability_iff (db : DB) (restaurant_id : Int)
    (reservation_time : String) (party_size : Int) :
    BookingAgent.check_availability db restaurant_id reservation_time party_size = true ↔
      ∃ row, fetchAvailability db restaurant_id (dateOf reservation_time) = some row ∧
        party_size ≤ row.available_slots := by
  unfold BookingAgent.check_availability
  cases h : fetchAvailability db restaurant_id (dateOf reservation_time) with
  | none => simp
  | some row => simp [ge_iff_le]

/-- C6: `modify_booking` mutates nothing on failure.  Whenever it returns
the no-availability message the final state equals the initial state (the
stored booking and every ledger entry are untouched), and whenever the
booking id is absent it returns the not-found message with the state
unchanged. -/
theorem modify_booking_failure_frame (db : DB) (booking_id : Int)
    (new_reservation_time : String) (new_party_size : Int) :
    ((BookingAgent.modify_booking db booking_id new_reservation_time new_party_size).2
        = noSlotsMsg →
      (BookingAgent.modify_booking db booking_id new_reservation_time
        new_party_size).1 = db) ∧
    (db.bookings.find? (fun b => b.id == booking_id) = none →
      BookingAgent.modify_booking db booking_id new_reservation_time new_party_size
        = (db, notFoundMsg)) := by
  cases h : db.bookings.find? (fun b => b.id == booking_id) with
  | none =>
    constructor
    · intro hmsg
      simp [BookingAgent.modify_booking, h, notFoundMsg, noSlotsMsg] at hmsg
    · intro _
      simp [BookingAgent.modify_booking, h]
  | some b =>
    constructor
    · by_cases hc : BookingAgent.check_availability db b.restaurant_id
          new_reservation_time new_party_size = true
      · intro hmsg
        simp [BookingAgent.modify_booking, h, hc, updatedMsg, noSlotsMsg] at hmsg
      · intro _
        simp [BookingAgent.modify_booking, h, hc]
    · intro hnone
      exact Option.noConfusion hnone

/-- C6 witness: in `dbTight` a modification to a date with no ledger row
fails with the no-availability message, and the state is unchanged. -/
theorem modify_booking_failure_frame_witness :
    (BookingAgent.modify_booking dbTight 1 "2025-02-11 19:00" 4).1 = dbTight :=
  (modify_booking_failure_frame dbTight 1 "2025-02-11 19:00" 4).1 (by decide)

/-- The per-row update that `modify_booking` performs keeps id,
restaurant, customer name and phone of every booking in the list. -/
theorem map_bookingIdentity_update (l : List Booking) (booking_id : Int)
    (new_reservation_time : String) (new_party_size : Int) :
    (l.map (fun b =>
        if b.id == booking_id then
          { b with reservation_time := new_reservation_time,
                   party_size := new_party_size }
        else b)).map bookingIdentity = l.map bookingIdentity := by
  induction l with
  | nil => rfl
  | cons a l ih =>
    simp only [List.map_cons, ih]
    congr 1
    by_cases h : (a.id == booking_id) = true
    · rw [if_pos h]
      rfl
    · rw [if_neg h]

/-- C9: `modify_booking` never changes any booking's id, restaurant,
customer name or phone — the `bookingIdentity` projection of the whole
table is preserved by every call — and when the booking exists the
availability check is taken against the stored booking's own
restaurant: the call reports success exactly when `check_availability`
holds for that restaurant with the new time and party size. -/
theorem modify_booking_preserves_identity (db : DB) (booking_id : Int)
    (new_reservation_time : String) (new_party_size : Int) :
    ((BookingAgent.modify_booking db booking_id new_reservation_time
        new_party_size).1.bookings.map bookingIdentity
      = db.bookings.map bookingIdentity) ∧
    (∀ b, db.bookings.find? (fun x => x.id == booking_id) = some b →
      ((BookingAgent.modify_booking db booking_id new_reservation_time
          new_party_size).2 = updatedMsg ↔
        BookingAgent.check_availability db b.restaurant_id new_reservation_time
          new_party_size = true)) := by
  cases h : db.bookings.find? (fun x => x.id == booking_id) with
  | none =>
    constructor
    · simp [BookingAgent.modify_booking, h]
    · intro b hb
      exact Option.noConfusion hb
  | some b0 =>
    by_cases hc : BookingAgent.check_availability db b0.restaurant_id
        new_reservation_time new_party_size = true
    · constructor
      · simp only [BookingAgent.modify_booking, h, hc, if_true]
        exact map_bookingIdentity_update db.bookings booking_id
          new_reservation_time new_party_size
      · intro b hb
        injection hb with hb0
        subst hb0
        simp [BookingAgent.modify_booking, h, hc]
    · constructor
      · simp [BookingAgent.modify_booking, h, hc]
      · intro b hb
        injection hb with hb0
        subst hb0
        simp [BookingAgent.modify_booking, h, hc, updatedMsg, noSlotsMsg]

/-- C9 witness: modifying booking 1 of `dbOneBooking` to a party of 3
succeeds, as its own restaurant has 48 slots on the requested date. -/
theorem modify_booking_preserves_identity_witness :
    (BookingAgent.modify_booking dbOneBooking 1 "2025-02-10 20:00" 3).2 = updatedMsg :=
  ((modify_booking_preserves_identity dbOneBooking 1 "2025-02-10 20:00" 3).2
    ⟨1, 1, "Alice", "555-0001", "2025-02-10 18:00", 2⟩ (by decide)).mpr (by decide)

/-- C5 counterexample: booking 1 in `dbTight` has party size 5 on
2025-02-10; a same-date modification shrinking the party to 4 is rejected
with the no-availability message, because the code validates the NEW size
against the 3 remaining slots without crediting back the old 5. -/
theorem modify_same_date_shrink_rejected :
    dbTight.bookings.find? (fun b => b.id == 1)
      = some ⟨1, 1, "Gina", "555-0007", "2025-02-10 18:00", 5⟩ ∧
    dateOf "2025-02-10 19:00" = dateOf "2025-02-10 18:00" ∧
    (4 : Int) ≤ 5 ∧
    (BookingAgent.modify_booking dbTight 1 "2025-02-10 19:00" 4).2 = noSlotsMsg ∧
    noSlotsMsg ≠ updatedMsg := by
  decide

/-- C5 amended: for an existing booking, a same-date modification with
`new_party_size ≤ old_party_size` succeeds exactly when the availability
row for the new date holds at least `new_party_size` slots — the old
reservation is not credited back, so such a modification CAN be rejected
with the no-availability result when the row holds fewer slots. -/
theorem modify_same_date_shrink_checks_new_size (db : DB) (booking_id : Int)
    (new_reservation_time : String) (new_party_size : Int) (b : Booking)
    (hb : db.bookings.find? (fun x => x.id == booking_id) = some b)
    (hdate : dateOf new_reservation_time = dateOf b.reservation_time)
    (hshrink : new_party_size ≤ b.party_size) :
    ((BookingAgent.modify_booking db booking_id new_reservation_time
        new_party_size).2 = updatedMsg ↔
      ∃ row, fetchAvailability db b.restaurant_id (dateOf new_reservation_time)
          = some row ∧ new_party_size ≤ row.available_slots) := by
  rw [← check_availability_iff]
  by_cases hc : BookingAgent.check_availability db b.restaurant_id
      new_reservation_time new_party_size = true
  · constructor
    · intro _
      exact hc
    · intro _
      simp [BookingAgent.modify_booking, hb, hc]
  · constructor
    · intro hmsg
      simp [BookingAgent.modify_booking, hb, hc, updatedMsg, noSlotsMsg] at hmsg
    · intro hT
      exact absurd hT hc

/-- C5 witness: in `dbRoomy` (5 slots left) the same shrink from 5 to 4 on
the same date succeeds. -/
theorem modify_same_date_shrink_checks_new_size_witness :
    (BookingAgent.modify_booking dbRoomy 1 "2025-02-10 19:00" 4).2 = updatedMsg :=
  (modify_same_date_shrink_checks_new_size dbRoomy 1 "2025-02-10 19:00" 4
      ⟨1, 1, "Hank", "555-0008", "2025-02-10 18:00", 5⟩
      (by decide) (by decide) (by decide)).mpr
    ⟨⟨1, 1, "2025-02-10", 5⟩, by decide, by decide⟩

/-- C10 counterexample: `update_availability` can drive a row negative
(here -2), and then a booking with the non-positive party size -1 is
REJECTED (-2 < -1), although an availability entry exists for the date —
so the claim does not hold for every entry. -/
theorem nonpositive_party_can_be_rejected :
    fetchAvailability dbNegSlots 1 (dateOf "2025-02-10 18:00")
      = some ⟨1, 1, "2025-02-10", -2⟩ ∧
    (-1 : Int) ≤ 0 ∧
    BookingAgent.book_table dbNegSlots 1 "Ivy" "555-0009" "2025-02-10 18:00" (-1)
      = (dbNegSlots, noSlotsMsg) ∧
    noSlotsMsg ≠ confirmedMsg := by
  decide

/-- C10 amended: `book_table` performs no positivity check.  For every
party size ≤ 0, whenever the availability row for the requested date holds
a non-negative slot count — including exactly 0 — the booking is confirmed
and a row with the non-positive party size is inserted. -/
theorem book_table_accepts_nonpositive_party (db : DB) (restaurant_id : Int)
    (customer_name customer_phone reservation_time : String) (party_size : Int)
    (row : AvailabilityRow)
    (hrow : fetchAvailability db restaurant_id (dateOf reservation_time) = some row)
    (hnn : 0 ≤ row.available_slots) (hp : party_size ≤ 0) :
    BookingAgent.book_table db restaurant_id customer_name customer_phone
        reservation_time party_size =
      ({ db with
          bookings := db.bookings ++
            [⟨db.nextBookingId, restaurant_id, customer_name, customer_phone,
              reservation_time, party_size⟩],
          nextBookingId := db.nextBookingId + 1 },
        confirmedMsg) := by
  have hc : BookingAgent.check_availability db restaurant_id reservation_time
      party_size = true := by
    unfold BookingAgent.check_availability
    rw [hrow]
    exact decide_eq_true (le_trans hp hnn)
  unfold BookingAgent.book_table
  rw [if_pos hc]

/-- C10 witness: with 0 slots on the date, a party of 0 is confirmed and
stored. -/
theorem book_table_accepts_nonpositive_party_witness :
    BookingAgent.book_table dbZeroSlots 1 "Jo" "555-0010" "2025-02-10 18:00" 0 =
      ({ dbZeroSlots with
          bookings := [⟨1, 1, "Jo", "555-0010", "2025-02-10 18:00", 0⟩],
          nextBookingId := 2 }, confirmedMsg) :=
  book_table_accepts_nonpositive_party dbZeroSlots 1 "Jo" "555-0010"
    "2025-02-10 18:00" 0 ⟨1, 1, "2025-02-10", 0⟩ (by decide) (by decide) (by decide)
